import Mathlib

/-!
Shallow embedding of the user-app service: the relational store
(`users`, `user_profiles` from database.sql), the token codec calls
(jsonwebtoken `sign`/`verify` as invoked in routes/auth.js), the
authorization gate (`authenticateJWT` in middleware/jwtMiddleware.js),
and the route handlers of routes/auth.js and routes/profile.js.
-/

namespace UserApp

/-- A row of the `users` table (database.sql): serial id, unique
username, bcrypt digest. -/
structure UserRow where
  id : Nat
  username : String
  password_hash : String
deriving Repr, DecidableEq

/-- A row of the `user_profiles` table (database.sql): foreign key to
`users.id` plus two display columns. -/
structure ProfileRow where
  user_id : Nat
  display_name : String
  bio : String
deriving Repr, DecidableEq

/-- The persistent state: the two tables, and the next value of the
`users.id` serial sequence. -/
structure DB where
  users : List UserRow
  profiles : List ProfileRow
  nextId : Nat
deriving Repr, DecidableEq

/-- Default for `user_profiles.display_name` (database.sql line 9). -/
def defaultDisplayName : String := "No name set yet."

/-- Default for `user_profiles.bio` (database.sql line 10). -/
def defaultBio : String := "No bio set yet."

/-- JSON response bodies produced by the handlers, one constructor per
shape occurring in the source. -/
inductive Body where
  | msg (success : Bool) (message : String)
  | redirect (success : Bool) (redirect : String)
  | tokenValid (tokenIsValid : Bool)
  | successOnly (success : Bool)
  | serverError (error : String)
  | profileData (success : Bool) (username display_name bio : String)
  | deleted (success : Bool) (message : String) (redirect : String)
deriving Repr, DecidableEq

/-- Cookie attributes as passed to Express `res.cookie` /
`res.clearCookie`; Express defaults the path to "/" when not given. -/
structure CookieOptions where
  httpOnly : Bool := false
  secure : Bool := false
  maxAge : Option Nat := none
  sameSite : Option String := none
  path : String := "/"
deriving Repr, DecidableEq

/-- A token as produced by `jwt.sign({id}, secret, {expiresIn: ttl})`:
the subject claim, the absolute expiry `iat + ttl`, and the key the
signature was computed with (modelling an unforgeable MAC: a signature
verifies against a secret exactly when it was produced with it). -/
structure Token where
  id : Nat
  exp : Nat
  sigKey : String
deriving Repr, DecidableEq

/-- `jwt.sign({id: subject}, secret, {expiresIn: ttl})` at clock time
`now` (seconds): embeds the subject and expiry `now + ttl`. -/
def jwtSign (subject : Nat) (secret : String) (now ttl : Nat) : Token :=
  { id := subject, exp := now + ttl, sigKey := secret }

/-- `jwt.verify(token, secret)` at clock time `now`: succeeds with the
embedded subject exactly when the signature checks against `secret` and
the clock is strictly before the expiry (jsonwebtoken raises
TokenExpiredError when `now >= exp`). -/
def jwtVerify (t : Token) (secret : String) (now : Nat) : Option Nat :=
  if t.sigKey = secret ∧ now < t.exp then some t.id else none

/-- Cookie/response side effects of a handler. -/
inductive CookieEffect where
  | none
  | set (name : String) (tok : Token) (opts : CookieOptions)
  | clear (name : String) (opts : CookieOptions)
deriving Repr, DecidableEq

/-- Attributes used at issuance (routes/auth.js lines 102-106 and
211-215): httpOnly, secure tied to NODE_ENV, maxAge 1800000 ms. -/
def issueCookieOptions (prod : Bool) : CookieOptions :=
  { httpOnly := true, secure := prod, maxAge := some 1800000 }

/-- Attributes passed to `res.clearCookie` in the logout handler
(routes/auth.js lines 304-308): httpOnly, secure tied to NODE_ENV,
sameSite "strict". -/
def logoutClearOptions (prod : Bool) : CookieOptions :=
  { httpOnly := true, secure := prod, sameSite := some "strict" }

/-- Outcome of the authorization gate: a short-circuit response, or
admission with the subject id attached to the request context. -/
inductive GateResult where
  | reject (status : Nat) (body : Body)
  | proceed (user_id : Nat)
deriving Repr, DecidableEq

/-- `authenticateJWT` (middleware/jwtMiddleware.js): reads the
`auth_token` cookie; absent cookie is rejected 401 before any
verification, failed verification is rejected 403, success attaches
`decoded.id` to the request and proceeds. -/
def authenticateJWT (cookie : Option Token) (secret : String) (now : Nat) :
    GateResult :=
  match cookie with
  | Option.none =>
      GateResult.reject 401 (Body.msg false "Access Denied: No token provided")
  | Option.some t =>
      match jwtVerify t secret now with
      | Option.none =>
          GateResult.reject 403 (Body.msg false "Forbidden: Invalid token")
      | Option.some i => GateResult.proceed i

/-- GET /auth/validate (routes/auth.js lines 263-271): behind the gate;
the handler itself returns 200 {tokenIsValid:true}. -/
def validateRoute (cookie : Option Token) (secret : String) (now : Nat) :
    Nat × Body :=
  match authenticateJWT cookie secret now with
  | GateResult.reject s b => (s, b)
  | GateResult.proceed _ => (200, Body.tokenValid true)

/-- `SELECT * FROM users WHERE username = $1` — the matching rows. -/
def lookupByUsername (db : DB) (username : String) : List UserRow :=
  db.users.filter (fun u => u.username = username)

/-- Result of the registration handler: the store afterwards, the HTTP
response, the cookie effect, and whether the hasher and the codec were
invoked on this path. -/
structure RegisterResult where
  db : DB
  status : Nat
  body : Body
  cookie : CookieEffect
  hashInvoked : Bool
  tokenIssued : Bool
deriving Repr, DecidableEq

/-- POST /auth/register (routes/auth.js lines 70-119). `hashFn` models
`bcrypt.hash` with a fresh salt for this call; `profileInsertOk` models
whether the second INSERT succeeds — the two inserts are separate
statements with no transaction, and a failure of the second throws into
the catch branch (500) after the user row is already committed. -/
def register (db : DB) (username password : String)
    (hashFn : String → String) (secret : String) (now : Nat) (prod : Bool)
    (profileInsertOk : Bool) : RegisterResult :=
  if (lookupByUsername db username).length > 0 then
    { db := db, status := 409
      body := Body.msg false
        "Username is already in use. Please choose a different one."
      cookie := CookieEffect.none, hashInvoked := false, tokenIssued := false }
  else
    let password_hash := hashFn password
    let newId := db.nextId
    let db1 : DB :=
      { db with users := db.users ++ [⟨newId, username, password_hash⟩],
                nextId := db.nextId + 1 }
    if profileInsertOk then
      let db2 : DB :=
        { db1 with profiles :=
            db1.profiles ++ [⟨newId, defaultDisplayName, defaultBio⟩] }
      let token := jwtSign newId secret now 1800
      { db := db2, status := 201, body := Body.redirect true "/profile"
        cookie := CookieEffect.set "auth_token" token (issueCookieOptions prod)
        hashInvoked := true, tokenIssued := true }
    else
      { db := db1, status := 500, body := Body.serverError "Server error"
        cookie := CookieEffect.none, hashInvoked := true, tokenIssued := false }

/-- POST /auth/login (routes/auth.js lines 180-228). `compare` models
`bcrypt.compare(password, digest)`. -/
def login (db : DB) (username password : String)
    (compare : String → String → Bool) (secret : String) (now : Nat)
    (prod : Bool) : Nat × Body × CookieEffect :=
  match lookupByUsername db username with
  | [] =>
      (401, Body.msg false "Username and/or password is incorrect.",
        CookieEffect.none)
  | u :: _ =>
      if compare password u.password_hash then
        (200, Body.redirect true "/profile",
          CookieEffect.set "auth_token" (jwtSign u.id secret now 1800)
            (issueCookieOptions prod))
      else
        (401, Body.msg false "Username and/or password is incorrect.",
          CookieEffect.none)

/-- POST /auth/logout (routes/auth.js lines 301-319): unconditionally
clears the `auth_token` cookie and returns 200; the incoming cookie is
never read, no store or codec call occurs (the definition takes neither
a DB nor a secret). -/
def logout (_cookie : Option Token) (prod : Bool) :
    Nat × Body × CookieEffect :=
  (200, Body.successOnly true,
    CookieEffect.clear "auth_token" (logoutClearOptions prod))

/-- Fields of `user_profiles` updatable via PUT /profile/update. -/
inductive ProfileField where
  | displayName
  | bio
deriving Repr, DecidableEq

/-- JavaScript truthiness of an optional string request field: absent
and the empty string are falsy. -/
def truthy : Option String → Bool
  | Option.none => false
  | Option.some s => s ≠ ""

/-- Request body of PUT /profile/update (the handler destructures
`displayName` and `bio`). -/
structure UpdateBody where
  displayName : Option String
  bio : Option String
deriving Repr, DecidableEq

/-- The SET clause built by the handler (routes/profile.js lines
171-185): a field enters it only when its request value is truthy. -/
def updFields (b : UpdateBody) : List (ProfileField × String) :=
  (if truthy b.displayName
    then [(ProfileField.displayName, b.displayName.getD "")] else []) ++
  (if truthy b.bio then [(ProfileField.bio, b.bio.getD "")] else [])

/-- Apply a SET clause to one row. -/
def applyFields (fields : List (ProfileField × String)) (p : ProfileRow) :
    ProfileRow :=
  fields.foldl
    (fun p f =>
      match f.1 with
      | ProfileField.displayName => { p with display_name := f.2 }
      | ProfileField.bio => { p with bio := f.2 })
    p

/-- Execute `UPDATE user_profiles SET <fields> WHERE user_id = $n`.
An empty SET clause is a SQL syntax error (`SET` must be followed by at
least one assignment), which node-postgres surfaces as a thrown error;
otherwise the statement rewrites every row whose `user_id` matches and
reports the affected row count. -/
def runUpdate (db : DB) (uid : Nat) (fields : List (ProfileField × String)) :
    Except String (DB × Nat) :=
  if fields = [] then Except.error "syntax error at or near WHERE"
  else
    let newProfiles :=
      db.profiles.map
        (fun p => if p.user_id = uid then applyFields fields p else p)
    let rowCount := (db.profiles.filter (fun p => p.user_id = uid)).length
    Except.ok ({ db with profiles := newProfiles }, rowCount)

/-- PUT /profile/update handler body after the gate (routes/profile.js
lines 166-218): builds the SET clause from truthy fields, runs the
update; a thrown query error lands in the catch branch (500), a zero
row count yields 300, otherwise 200. -/
def updateProfile (db : DB) (uid : Nat) (b : UpdateBody) :
    DB × Nat × Body :=
  match runUpdate db uid (updFields b) with
  | Except.error _ =>
      (db, 500, Body.msg false "An error has occurred. Please try again later.")
  | Except.ok (db1, n) =>
      if n = 0 then (db1, 300, Body.msg false "Profile could not be updated.")
      else (db1, 200, Body.msg true "Profile updated.")

/-- DELETE /profile/delete handler body after the gate
(routes/profile.js lines 272-301): `DELETE FROM users WHERE id = $1`
with `ON DELETE CASCADE` removing the profile rows; a zero row count
yields 404. -/
def deleteUser (db : DB) (uid : Nat) : DB × Nat × Body :=
  let n := (db.users.filter (fun u => u.id = uid)).length
  if n = 0 then (db, 404, Body.msg false "User to delete not found.")
  else
    ({ db with users := db.users.filter (fun u => ¬ u.id = uid),
               profiles := db.profiles.filter (fun p => ¬ p.user_id = uid) },
      200, Body.deleted true "User deleted." "/")

/-- The full DELETE /profile/delete route: gate, then handler. -/
def deleteRoute (db : DB) (cookie : Option Token) (secret : String)
    (now : Nat) : DB × Nat × Body :=
  match authenticateJWT cookie secret now with
  | GateResult.reject s b => (db, s, b)
  | GateResult.proceed uid => deleteUser db uid

/-- The invariant of §3: every `users` row has a `user_profiles` row
bound to its id. -/
def profileInvariant (db : DB) : Prop :=
  ∀ u ∈ db.users, ∃ p ∈ db.profiles, p.user_id = u.id

instance (db : DB) : Decidable (profileInvariant db) := by
  unfold profileInvariant
  infer_instance

/-- The user id of a row is untouched by any SET clause: the clause can
only assign `display_name` and `bio`. -/
theorem applyFields_user_id (fields : List (ProfileField × String))
    (p : ProfileRow) : (applyFields fields p).user_id = p.user_id := by
  induction fields generalizing p with
  | nil => rfl
  | cons f rest ih =>
      cases f with
      | mk fld v =>
          cases fld <;> simpa [applyFields] using ih _

/-- Claim C1: on a protected route, a request with no `auth_token`
cookie is rejected 401 with body {success:false, message:"Access
Denied: No token provided"} and the outcome does not depend on the
secret or the clock (no verification is attempted); a present but
unverifiable token is rejected 403 with {success:false,
message:"Forbidden: Invalid token"}; a verifiable token attaches the
resolved subject id and proceeds, so GET /auth/validate answers 200
{tokenIsValid:true}. -/
theorem C1_authorization_gate (secret s2 : String) (now n2 : Nat)
    (t : Token) (i : Nat) :
    (authenticateJWT Option.none secret now
        = GateResult.reject 401
            (Body.msg false "Access Denied: No token provided")
      ∧ authenticateJWT Option.none secret now
        = authenticateJWT Option.none s2 n2)
    ∧ (jwtVerify t secret now = Option.none →
        authenticateJWT (Option.some t) secret now
          = GateResult.reject 403 (Body.msg false "Forbidden: Invalid token"))
    ∧ (jwtVerify t secret now = Option.some i →
        authenticateJWT (Option.some t) secret now = GateResult.proceed i
        ∧ validateRoute (Option.some t) secret now
            = (200, Body.tokenValid true)) := by
  refine ⟨⟨rfl, rfl⟩, ?_, ?_⟩
  · intro h
    simp [authenticateJWT, h]
  · intro h
    exact ⟨by simp [authenticateJWT, h],
      by simp [validateRoute, authenticateJWT, h]⟩

/-- Witness for C1 at concrete inputs: a token signed with the wrong
secret is rejected 403, and a well-signed unexpired token for subject 5
passes the gate and makes /auth/validate answer 200. -/
theorem C1_authorization_gate_witness :
    (authenticateJWT (Option.some (jwtSign 5 "other" 0 1800)) "s" 10
        = GateResult.reject 403 (Body.msg false "Forbidden: Invalid token"))
    ∧ (authenticateJWT (Option.some (jwtSign 5 "s" 0 1800)) "s" 10
          = GateResult.proceed 5
        ∧ validateRoute (Option.some (jwtSign 5 "s" 0 1800)) "s" 10
            = (200, Body.tokenValid true)) :=
  ⟨(C1_authorization_gate "s" "x" 10 0 (jwtSign 5 "other" 0 1800) 5).2.1
      (by decide),
    (C1_authorization_gate "s" "x" 10 0 (jwtSign 5 "s" 0 1800) 5).2.2
      (by decide)⟩

/-- Claim C2: a login whose username is not in the store and a login
whose username exists but whose password does not match produce the
same response: 401 with body {success:false, message:"Username and/or
password is incorrect."} and no cookie. -/
theorem C2_login_uniform_failure (db : DB) (u1 p1 u2 p2 : String)
    (compare : String → String → Bool) (secret : String) (now : Nat)
    (prod : Bool) (u : UserRow) (rest : List UserRow)
    (h1 : lookupByUsername db u1 = [])
    (h2 : lookupByUsername db u2 = u :: rest)
    (h3 : compare p2 u.password_hash = false) :
    login db u1 p1 compare secret now prod
      = (401, Body.msg false "Username and/or password is incorrect.",
          CookieEffect.none)
    ∧ login db u2 p2 compare secret now prod
      = (401, Body.msg false "Username and/or password is incorrect.",
          CookieEffect.none) := by
  constructor
  · simp [login, h1]
  · simp [login, h2, h3]

/-- Witness for C2: a store holding only user "bob"; logging in as the
absent "alice" and as "bob" with a rejected password give the same 401
response. -/
theorem C2_login_uniform_failure_witness :
    login ⟨[⟨1, "bob", "H"⟩], [], 2⟩ "alice" "pw" (fun _ _ => false) "s" 0 false
      = (401, Body.msg false "Username and/or password is incorrect.",
          CookieEffect.none)
    ∧ login ⟨[⟨1, "bob", "H"⟩], [], 2⟩ "bob" "pw" (fun _ _ => false) "s" 0 false
      = (401, Body.msg false "Username and/or password is incorrect.",
          CookieEffect.none) :=
  C2_login_uniform_failure ⟨[⟨1, "bob", "H"⟩], [], 2⟩ "alice" "pw" "bob" "pw"
    (fun _ _ => false) "s" 0 false ⟨1, "bob", "H"⟩ [] (by decide) (by decide)
    rfl

/-- Claim C3: an issued token embeds the subject id and expiry
now + 1800; verification succeeds exactly when the signature checks
against the given secret and the clock is strictly before the expiry;
within the validity window, verify(issue(id)) yields id. -/
theorem C3_token_codec (subject : Nat) (secret : String) (now : Nat)
    (tok : Token) (s2 : String) (t2 : Nat) :
    ((jwtSign subject secret now 1800).id = subject
      ∧ (jwtSign subject secret now 1800).exp = now + 1800)
    ∧ ((jwtVerify tok s2 t2).isSome ↔ (tok.sigKey = s2 ∧ t2 < tok.exp))
    ∧ (t2 < now + 1800 →
        jwtVerify (jwtSign subject secret now 1800) secret t2
          = Option.some subject) := by
  refine ⟨⟨rfl, rfl⟩, ?_, ?_⟩
  · unfold jwtVerify
    split <;> simp_all
  · intro h
    simp [jwtVerify, jwtSign, h]

/-- Witness for C3: a token for subject 7 issued at time 100 round-trips
at time 1899 (one second before expiry). -/
theorem C3_token_codec_witness :
    jwtVerify (jwtSign 7 "s" 100 1800) "s" 1899 = Option.some 7 :=
  (C3_token_codec 7 "s" 100 (jwtSign 7 "s" 100 1800) "s" 1899).2.2 (by decide)

/-- Counterexample to claim C4 as stated: the two registration inserts
are separate statements with no transaction, so when the profile insert
fails partway the already-committed User row is left without a Profile
row — the invariant does not hold after that registration. -/
theorem C4_counterexample :
    ¬ profileInvariant
        (register ⟨[], [], 1⟩ "alice" "pw" (fun p => p) "s" 0 false
          false).db := by
  decide

/-- Claim C4 as amended: when both inserts succeed, registration of a
fresh username creates the User row and a default Profile row bound to
the new id ("No name set yet." / "No bio set yet.") and preserves the
one-profile-per-user invariant; but the operation is not atomic: if the
profile insert fails after the user insert, the handler answers 500 and
the new User row remains in the store with no Profile row. -/
theorem C4_register_profile (db : DB) (username password : String)
    (hashFn : String → String) (secret : String) (now : Nat) (prod : Bool)
    (hinv : profileInvariant db)
    (hfree : lookupByUsername db username = [])
    (hfresh : ∀ p ∈ db.profiles, ¬ p.user_id = db.nextId) :
    ((register db username password hashFn secret now prod true).status = 201
      ∧ (⟨db.nextId, username, hashFn password⟩ : UserRow)
          ∈ (register db username password hashFn secret now prod true).db.users
      ∧ (⟨db.nextId, defaultDisplayName, defaultBio⟩ : ProfileRow)
          ∈ (register db username password hashFn secret now prod
              true).db.profiles
      ∧ profileInvariant
          (register db username password hashFn secret now prod true).db)
    ∧ ((register db username password hashFn secret now prod false).status
          = 500
      ∧ (⟨db.nextId, username, hashFn password⟩ : UserRow)
          ∈ (register db username password hashFn secret now prod
              false).db.users
      ∧ ¬ profileInvariant
            (register db username password hashFn secret now prod false).db) := by
  have hlen : ¬ (lookupByUsername db username).length > 0 := by
    rw [hfree]
    decide
  constructor
  · refine ⟨?_, ?_, ?_, ?_⟩
    · simp [register, hlen]
    · simp [register, hlen]
    · simp [register, hlen]
    · intro u hu
      simp only [register, hlen, if_false, if_true, List.mem_append,
        List.mem_singleton] at hu ⊢
      rcases hu with hu | hu
      · obtain ⟨p, hp, hpid⟩ := hinv u hu
        exact ⟨p, Or.inl hp, hpid⟩
      · subst hu
        exact ⟨⟨db.nextId, defaultDisplayName, defaultBio⟩, Or.inr rfl, rfl⟩
  · refine ⟨?_, ?_, ?_⟩
    · simp [register, hlen]
    · simp [register, hlen]
    · intro hcontra
      obtain ⟨p, hp, hpid⟩ :=
        hcontra ⟨db.nextId, username, hashFn password⟩
          (by simp [register, hlen])
      simp only [register, hlen, if_false] at hp
      exact hfresh p hp hpid

/-- Witness for the amended C4 on the empty store: registering "alice"
with both inserts succeeding yields 201, both rows, and the invariant;
with a failing profile insert it yields 500 and a profile-less user. -/
theorem C4_register_profile_witness :
    ((register ⟨[], [], 1⟩ "alice" "pw" (fun p => p) "s" 0 false true).status
        = 201
      ∧ (⟨1, "alice", "pw"⟩ : UserRow)
          ∈ (register ⟨[], [], 1⟩ "alice" "pw" (fun p => p) "s" 0 false
              true).db.users
      ∧ (⟨1, defaultDisplayName, defaultBio⟩ : ProfileRow)
          ∈ (register ⟨[], [], 1⟩ "alice" "pw" (fun p => p) "s" 0 false
              true).db.profiles
      ∧ profileInvariant
          (register ⟨[], [], 1⟩ "alice" "pw" (fun p => p) "s" 0 false true).db)
    ∧ ((register ⟨[], [], 1⟩ "alice" "pw" (fun p => p) "s" 0 false
          false).status = 500
      ∧ (⟨1, "alice", "pw"⟩ : UserRow)
          ∈ (register ⟨[], [], 1⟩ "alice" "pw" (fun p => p) "s" 0 false
              false).db.users
      ∧ ¬ profileInvariant
            (register ⟨[], [], 1⟩ "alice" "pw" (fun p => p) "s" 0 false
              false).db) :=
  C4_register_profile ⟨[], [], 1⟩ "alice" "pw" (fun p => p) "s" 0 false
    (by decide) (by decide) (by decide)

/-- Claim C5: registering an already-taken username answers 409 with
body {success:false, message:"Username is already in use. Please choose
a different one."}, leaves the store exactly as it was, sets no cookie,
and invokes neither the hasher nor the codec. -/
theorem C5_register_conflict (db : DB) (username password : String)
    (hashFn : String → String) (secret : String) (now : Nat)
    (prod pOk : Bool) (h : ∃ u ∈ db.users, u.username = username) :
    register db username password hashFn secret now prod pOk
      = { db := db, status := 409
          body := Body.msg false
            "Username is already in use. Please choose a different one."
          cookie := CookieEffect.none, hashInvoked := false
          tokenIssued := false } := by
  obtain ⟨u, hu, hname⟩ := h
  have hmem : u ∈ lookupByUsername db username := by
    simp [lookupByUsername, List.mem_filter, hu, hname]
  have hlen : (lookupByUsername db username).length > 0 :=
    List.length_pos.mpr (List.ne_nil_of_mem hmem)
  simp [register, hlen]

/-- Witness for C5: on a store already holding "bob", registering "bob"
again answers 409 and changes nothing. -/
theorem C5_register_conflict_witness :
    register ⟨[⟨1, "bob", "H"⟩], [⟨1, "n", "b"⟩], 2⟩ "bob" "pw2" (fun p => p)
        "s" 0 false true
      = { db := ⟨[⟨1, "bob", "H"⟩], [⟨1, "n", "b"⟩], 2⟩, status := 409
          body := Body.msg false
            "Username is already in use. Please choose a different one."
          cookie := CookieEffect.none, hashInvoked := false
          tokenIssued := false } :=
  C5_register_conflict ⟨[⟨1, "bob", "H"⟩], [⟨1, "n", "b"⟩], 2⟩ "bob" "pw2"
    (fun p => p) "s" 0 false true (by decide)

/-- Counterexample to claim C6 as stated: the attributes passed to the
logout clear-cookie call are not the ones used at issuance — issuance
sets maxAge 1800000 and no sameSite, while the clear sets
sameSite "strict" and no maxAge (shown for both values of the
production flag). -/
theorem C6_counterexample :
    ¬ logoutClearOptions false = issueCookieOptions false
    ∧ ¬ logoutClearOptions true = issueCookieOptions true := by
  decide

/-- Claim C6 as amended: every logout request, with or without a cookie,
answers 200 {success:true} and issues a clear-cookie instruction for
`auth_token`; the handler reads no store and no codec (its result is
independent of the incoming cookie — an idempotent no-op when none was
present); the clear matches the issuance cookie on name, path, httpOnly
and secure, so the discard clears it, but its full attribute set
differs from issuance (sameSite "strict" instead of maxAge). -/
theorem C6_logout (c c2 : Option Token) (prod : Bool) :
    logout c prod
      = (200, Body.successOnly true,
          CookieEffect.clear "auth_token" (logoutClearOptions prod))
    ∧ logout c prod = logout c2 prod
    ∧ (logoutClearOptions prod).path = (issueCookieOptions prod).path
    ∧ (logoutClearOptions prod).httpOnly = (issueCookieOptions prod).httpOnly
    ∧ (logoutClearOptions prod).secure = (issueCookieOptions prod).secure :=
  ⟨rfl, rfl, rfl, rfl, rfl⟩

/-- Counterexample to claim C7 as stated: with zero truthy updatable
fields the handler does not reuse the 300 row-count-zero branch — the
generated statement has an empty SET clause, the query throws, and the
catch branch answers 500, even though a matching profile row exists. -/
theorem C7_counterexample :
    (updateProfile ⟨[⟨1, "bob", "H"⟩], [⟨1, "n", "b"⟩], 2⟩ 1
        ⟨Option.none, Option.none⟩).2
      = (500, Body.msg false "An error has occurred. Please try again later.") := by
  decide

/-- Claim C7 as amended: when the SET clause is nonempty and the update
affects zero rows the handler answers 300 {success:false,
message:"Profile could not be updated."}; but a request with zero
truthy updatable fields does not reach that branch: the empty SET
clause makes the query throw and the handler answers 500 from the
catch branch. -/
theorem C7_update_zero_rows (db : DB) (uid : Nat) (b : UpdateBody)
    (h0 : (db.profiles.filter (fun p => p.user_id = uid)).length = 0)
    (hf : ¬ updFields b = []) :
    (updateProfile db uid b).2
      = (300, Body.msg false "Profile could not be updated.")
    ∧ ∀ b2 : UpdateBody, updFields b2 = [] →
        (updateProfile db uid b2).2
          = (500,
              Body.msg false "An error has occurred. Please try again later.") := by
  constructor
  · simp [updateProfile, runUpdate, hf, h0]
  · intro b2 hb2
    simp [updateProfile, runUpdate, hb2]

/-- Witness for the amended C7: a store whose only profile belongs to
user 2; an update for user 1 with a truthy displayName affects zero
rows and answers 300, and the all-absent body answers 500. -/
theorem C7_update_zero_rows_witness :
    ((updateProfile ⟨[⟨1, "bob", "H"⟩], [⟨2, "n", "b"⟩], 3⟩ 1
          ⟨Option.some "New", Option.none⟩).2
        = (300, Body.msg false "Profile could not be updated."))
    ∧ ((updateProfile ⟨[⟨1, "bob", "H"⟩], [⟨2, "n", "b"⟩], 3⟩ 1
          ⟨Option.none, Option.none⟩).2
        = (500,
            Body.msg false "An error has occurred. Please try again later.")) :=
  ⟨(C7_update_zero_rows ⟨[⟨1, "bob", "H"⟩], [⟨2, "n", "b"⟩], 3⟩ 1
        ⟨Option.some "New", Option.none⟩ (by decide) (by decide)).1,
    (C7_update_zero_rows ⟨[⟨1, "bob", "H"⟩], [⟨2, "n", "b"⟩], 3⟩ 1
        ⟨Option.some "New", Option.none⟩ (by decide) (by decide)).2
      ⟨Option.none, Option.none⟩ (by decide)⟩

/-- Claim C8: the gate never consults the store — a well-signed
unexpired token is admitted with its embedded subject attached even
when no User row with that id exists, so on DELETE /profile/delete the
404 for a deleted user comes from the handler, after the gate, and the
store is left unchanged. -/
theorem C8_gate_ignores_store (db : DB) (secret : String) (now : Nat)
    (t : Token) (hsig : t.sigKey = secret) (hexp : now < t.exp)
    (habsent : ∀ u ∈ db.users, ¬ u.id = t.id) :
    authenticateJWT (Option.some t) secret now = GateResult.proceed t.id
    ∧ deleteRoute db (Option.some t) secret now
        = (db, 404, Body.msg false "User to delete not found.") := by
  have hv : jwtVerify t secret now = Option.some t.id := by
    simp [jwtVerify, hsig, hexp]
  have hgate : authenticateJWT (Option.some t) secret now
      = GateResult.proceed t.id := by
    simp [authenticateJWT, hv]
  refine ⟨hgate, ?_⟩
  have hfilter : db.users.filter (fun u => u.id = t.id) = [] := by
    rw [List.filter_eq_nil_iff]
    intro u hu
    simpa using habsent u hu
  simp [deleteRoute, hgate, deleteUser, hfilter]

/-- Witness for C8: a token for the absent id 9 over a store holding
only user 1 passes the gate and the delete handler answers 404 with the
store unchanged. -/
theorem C8_gate_ignores_store_witness :
    authenticateJWT (Option.some (jwtSign 9 "s" 0 1800)) "s" 10
        = GateResult.proceed 9
    ∧ deleteRoute ⟨[⟨1, "bob", "H"⟩], [⟨1, "n", "b"⟩], 2⟩
          (Option.some (jwtSign 9 "s" 0 1800)) "s" 10
        = (⟨[⟨1, "bob", "H"⟩], [⟨1, "n", "b"⟩], 2⟩, 404,
            Body.msg false "User to delete not found.") :=
  C8_gate_ignores_store ⟨[⟨1, "bob", "H"⟩], [⟨1, "n", "b"⟩], 2⟩ "s" 10
    (jwtSign 9 "s" 0 1800) rfl (by decide) (by decide)

/-- A truthy optional string is a present, nonempty string. -/
theorem truthy_getD (d : Option String) (h : truthy d = true) :
    ¬ d.getD "" = "" := by
  cases d <;> simp_all [truthy]

/-- The display name produced by applying the built SET clause: the
request value when truthy, the row's old value otherwise. -/
theorem applyFields_updFields_display (b : UpdateBody) (p : ProfileRow) :
    (applyFields (updFields b) p).display_name
      = if truthy b.displayName then b.displayName.getD ""
        else p.display_name := by
  by_cases hd : truthy b.displayName
    <;> by_cases hb : truthy b.bio
    <;> simp [updFields, applyFields, hd, hb]

/-- The bio produced by applying the built SET clause: the request
value when truthy, the row's old value otherwise. -/
theorem applyFields_updFields_bio (b : UpdateBody) (p : ProfileRow) :
    (applyFields (updFields b) p).bio
      = if truthy b.bio then b.bio.getD "" else p.bio := by
  by_cases hd : truthy b.displayName
    <;> by_cases hb : truthy b.bio
    <;> simp [updFields, applyFields, hd, hb]

/-- The store after PUT /profile/update: unchanged (throwing or
counting branch aside) or with exactly the matching profile rows
rewritten by the SET clause. -/
theorem updateProfile_db (db : DB) (uid : Nat) (b : UpdateBody) :
    (updateProfile db uid b).1 = db
    ∨ (updateProfile db uid b).1
        = { db with profiles :=
              db.profiles.map (fun p =>
                if p.user_id = uid then applyFields (updFields b) p
                else p) } := by
  unfold updateProfile runUpdate
  by_cases hf : updFields b = []
  · simp [hf]
  · simp only [hf, if_false]
    split <;> simp

/-- Claim C9: in PUT /profile/update an empty-string field is treated
exactly as an absent field — the SET clause and the whole handler
outcome coincide for the two requests — so the endpoint can never set
display_name or bio to the empty string: if no stored profile has an
empty display_name (resp. bio), none has after any update. -/
theorem C9_falsy_fields_skipped (db : DB) (uid : Nat) (d bv : Option String) :
    updFields ⟨Option.some "", bv⟩ = updFields ⟨Option.none, bv⟩
    ∧ updFields ⟨d, Option.some ""⟩ = updFields ⟨d, Option.none⟩
    ∧ updateProfile db uid ⟨Option.some "", bv⟩
        = updateProfile db uid ⟨Option.none, bv⟩
    ∧ updateProfile db uid ⟨d, Option.some ""⟩
        = updateProfile db uid ⟨d, Option.none⟩
    ∧ ((∀ p ∈ db.profiles, ¬ p.display_name = "") →
        ∀ p1 ∈ (updateProfile db uid ⟨d, bv⟩).1.profiles,
          ¬ p1.display_name = "")
    ∧ ((∀ p ∈ db.profiles, ¬ p.bio = "") →
        ∀ p1 ∈ (updateProfile db uid ⟨d, bv⟩).1.profiles, ¬ p1.bio = "") := by
  have hskipd : updFields ⟨Option.some "", bv⟩ = updFields ⟨Option.none, bv⟩ := by
    simp [updFields, truthy]
  have hskipb : updFields ⟨d, Option.some ""⟩ = updFields ⟨d, Option.none⟩ := by
    simp [updFields, truthy]
  refine ⟨hskipd, hskipb, ?_, ?_, ?_, ?_⟩
  · unfold updateProfile runUpdate
    rw [hskipd]
  · unfold updateProfile runUpdate
    rw [hskipb]
  · intro hall p1 hp1
    rcases updateProfile_db db uid ⟨d, bv⟩ with hdb | hdb
      <;> rw [hdb] at hp1
    · exact hall p1 hp1
    · simp only [List.mem_map] at hp1
      obtain ⟨p, hp, hfp⟩ := hp1
      by_cases hm : p.user_id = uid
      · rw [if_pos hm] at hfp
        rw [← hfp, applyFields_updFields_display]
        by_cases hd : truthy (⟨d, bv⟩ : UpdateBody).displayName
        · rw [if_pos hd]
          exact truthy_getD _ hd
        · rw [if_neg hd]
          exact hall p hp
      · rw [if_neg hm] at hfp
        rw [← hfp]
        exact hall p hp
  · intro hall p1 hp1
    rcases updateProfile_db db uid ⟨d, bv⟩ with hdb | hdb
      <;> rw [hdb] at hp1
    · exact hall p1 hp1
    · simp only [List.mem_map] at hp1
      obtain ⟨p, hp, hfp⟩ := hp1
      by_cases hm : p.user_id = uid
      · rw [if_pos hm] at hfp
        rw [← hfp, applyFields_updFields_bio]
        by_cases hb : truthy (⟨d, bv⟩ : UpdateBody).bio
        · rw [if_pos hb]
          exact truthy_getD _ hb
        · rw [if_neg hb]
          exact hall p hp
      · rw [if_neg hm] at hfp
        rw [← hfp]
        exact hall p hp

/-- Witness for C9: sending displayName "" alongside a real bio equals
sending no displayName at all, and the updated row keeps its nonempty
display name. -/
theorem C9_falsy_fields_skipped_witness :
    updateProfile ⟨[⟨1, "bob", "H"⟩], [⟨1, "n", "b"⟩], 2⟩ 1
        ⟨Option.some "", Option.some "newbio"⟩
      = updateProfile ⟨[⟨1, "bob", "H"⟩], [⟨1, "n", "b"⟩], 2⟩ 1
          ⟨Option.none, Option.some "newbio"⟩
    ∧ ¬ (⟨1, "n", "newbio"⟩ : ProfileRow).display_name = "" :=
  ⟨(C9_falsy_fields_skipped ⟨[⟨1, "bob", "H"⟩], [⟨1, "n", "b"⟩], 2⟩ 1
      (Option.some "") (Option.some "newbio")).2.2.1,
    (C9_falsy_fields_skipped ⟨[⟨1, "bob", "H"⟩], [⟨1, "n", "b"⟩], 2⟩ 1
      (Option.some "") (Option.some "newbio")).2.2.2.2.1 (by decide)
      ⟨1, "n", "newbio"⟩ (by decide)⟩

/-- Claim C10: PUT /profile/update leaves the users table and the id
sequence untouched, keeps the profile table's rows in place (same
length, same user_id in every position — only display_name/bio can
change), and leaves every profile row whose user_id differs from the
gate-attached subject exactly as it was. -/
theorem C10_update_frame (db : DB) (uid : Nat) (b : UpdateBody) :
    (updateProfile db uid b).1.users = db.users
    ∧ (updateProfile db uid b).1.nextId = db.nextId
    ∧ (updateProfile db uid b).1.profiles.length = db.profiles.length
    ∧ ∀ (i : Nat) (h : i < db.profiles.length)
        (h1 : i < (updateProfile db uid b).1.profiles.length),
        ((updateProfile db uid b).1.profiles.get ⟨i, h1⟩).user_id
            = (db.profiles.get ⟨i, h⟩).user_id
        ∧ (¬ (db.profiles.get ⟨i, h⟩).user_id = uid →
            (updateProfile db uid b).1.profiles.get ⟨i, h1⟩
              = db.profiles.get ⟨i, h⟩) := by
  rcases updateProfile_db db uid b with hdb | hdb <;> rw [hdb]
  · exact ⟨rfl, rfl, rfl, fun i h h1 => ⟨rfl, fun _ => rfl⟩⟩
  · refine ⟨rfl, rfl, by simp, ?_⟩
    intro i h h1
    have hget : ((db.profiles.map (fun p =>
        if p.user_id = uid then applyFields (updFields b) p else p)).get
          ⟨i, by simpa using h1⟩)
        = if (db.profiles.get ⟨i, h⟩).user_id = uid
          then applyFields (updFields b) (db.profiles.get ⟨i, h⟩)
          else db.profiles.get ⟨i, h⟩ := by
      simp
    constructor
    · rw [hget]
      by_cases hm : (db.profiles.get ⟨i, h⟩).user_id = uid
      · rw [if_pos hm, applyFields_user_id]
      · rw [if_neg hm]
    · intro hm
      rw [hget, if_neg hm]

/-- Witness for C10: updating user 1's display name over a store with
two profiles leaves the row of user 2 byte-for-byte unchanged, and the
users table as it was. -/
theorem C10_update_frame_witness :
    (updateProfile ⟨[⟨1, "bob", "H"⟩], [⟨1, "n", "b"⟩, ⟨2, "m", "c"⟩], 3⟩ 1
        ⟨Option.some "New", Option.none⟩).1.users = [⟨1, "bob", "H"⟩]
    ∧ (updateProfile ⟨[⟨1, "bob", "H"⟩], [⟨1, "n", "b"⟩, ⟨2, "m", "c"⟩], 3⟩ 1
        ⟨Option.some "New", Option.none⟩).1.profiles.get ⟨1, by decide⟩
      = ⟨2, "m", "c"⟩ := by
  have h := C10_update_frame
    ⟨[⟨1, "bob", "H"⟩], [⟨1, "n", "b"⟩, ⟨2, "m", "c"⟩], 3⟩ 1
    ⟨Option.some "New", Option.none⟩
  exact ⟨h.1, ((h.2.2.2 1 (by decide) (by decide)).2 (by decide)).trans
    (by decide)⟩

end UserApp
